import Mathlib

/-!
Shallow embedding of the voice-processing engine
(`VoiceProcessingEngine` in `src/services/voice-processing.ts`, plus the
interruption counter kept by the `VoiceInterface` React component).

Modelling conventions:
* JavaScript is single threaded; other code can mutate the engine's fields
  only while an `await` is suspended.  A pipeline run is therefore embedded
  as a pure function of the run's start time together with a `RunEnv`
  oracle that records, for each suspension point, the outcome of the
  external call and the value of `currentProcessingId` observed when the
  call returned.
* `Date.now().toString()` is modelled as the natural number returned by the
  clock (`toString` is injective on naturals and the id is only ever
  compared for equality, so ordering facts transfer).
* Transcript text is a `List Char`; `jsTrim` mirrors the whitespace
  stripping of the JavaScript `trim` method.
* Volumes are rationals.  The detection loop compares
  `sqrt (sum sq / n) / 255` against the thresholds; the tick function takes
  that volume as a parameter, and `detectRmsSq` is the square of the loop's
  volume formula, kept squared so it stays rational and executable.
* Audio elements are values with an id and a `paused` flag; transitions
  emit an event list so that side effects (pausing an element, starting or
  stopping the recorder, arming the silence timer) are observable.
-/

namespace VoiceEngine

/-- State of the MediaRecorder as used by the engine (it is never paused). -/
inductive RecState where
  | inactive
  | recording
deriving DecidableEq, Repr

/-- One HTMLAudioElement: identity plus its paused flag. -/
structure AudioElt where
  id : Nat
  paused : Bool
deriving DecidableEq, Repr

/-- The mutable fields of `VoiceProcessingEngine` relevant to the claims.
`snapshot` is the latest byte-frequency data of the analyser. -/
structure EngineState where
  isProcessing : Bool
  silenceTimer : Option Nat
  currentProcessingId : Option Nat
  currentAudio : Option AudioElt
  recorder : RecState
  snapshot : List Nat
deriving DecidableEq, Repr

/-- Engine state paired with the interruption counter, which lives in the
`VoiceInterface` component's metrics, not in the engine. -/
structure SysState where
  engine : EngineState
  interruptionCount : Nat
deriving DecidableEq, Repr

/-- Observable side effects of the sampling-loop transitions. -/
inductive VadEvent where
  | pauseAudio (id : Nat)
  | clearTimer
  | armTimer (deadline : Nat)
  | startRecording
  | stopRecording
  | playStarted (id : Nat)
deriving DecidableEq, Repr

def SILENCE_THRESHOLD : ℚ := 1 / 100

def SILENCE_DURATION : Nat := 1500

def INTERRUPTION_THRESHOLD : ℚ := 1 / 20

/-- Embedding of interruptCurrentResponse: pause and drop the current audio element,
then clear `currentProcessingId`. -/
def interruptCurrentResponse (s : EngineState) : EngineState × List VadEvent :=
  match s.currentAudio with
  | some a =>
      ({ s with currentAudio := none, currentProcessingId := none },
       [VadEvent.pauseAudio a.id])
  | none => ({ s with currentProcessingId := none }, [])

/-- Embedding of handleVoiceActivity: clear any pending silence timer; if an unpaused
audio element exists, treat the sample as an interruption; start the
recorder if it is inactive. -/
def handleVoiceActivity (s : EngineState) : EngineState × List VadEvent :=
  let p1 : EngineState × List VadEvent :=
    if s.silenceTimer.isSome then
      ({ s with silenceTimer := none }, [VadEvent.clearTimer])
    else (s, [])
  let p2 : EngineState × List VadEvent :=
    match p1.1.currentAudio with
    | some a =>
        if a.paused then (p1.1, [])
        else interruptCurrentResponse p1.1
    | none => (p1.1, [])
  let p3 : EngineState × List VadEvent :=
    if p2.1.recorder = RecState.inactive then
      ({ p2.1 with recorder := RecState.recording }, [VadEvent.startRecording])
    else (p2.1, [])
  (p3.1, p1.2 ++ p2.2 ++ p3.2)

/-- Embedding of handleSilence: arm the 1500 ms silence timer unless already armed.
`now` is the clock reading of the tick. -/
def handleSilence (s : EngineState) (now : Nat) : EngineState × List VadEvent :=
  if s.silenceTimer.isSome then (s, [])
  else
    ({ s with silenceTimer := some (now + SILENCE_DURATION) },
     [VadEvent.armTimer (now + SILENCE_DURATION)])

/-- The body of the silence timer callback: stop the recorder if it is
recording, then drop the timer. -/
def fireSilenceTimer (s : EngineState) : EngineState × List VadEvent :=
  let p1 : EngineState × List VadEvent :=
    if s.recorder = RecState.recording then
      ({ s with recorder := RecState.inactive }, [VadEvent.stopRecording])
    else (s, [])
  ({ p1.1 with silenceTimer := none }, p1.2)

/-- One iteration of `detectActivity`: compare the tick's volume against the
two thresholds and dispatch. -/
def detectTick (s : EngineState) (now : Nat) (vol : ℚ) : EngineState × List VadEvent :=
  if INTERRUPTION_THRESHOLD < vol then handleVoiceActivity s
  else if vol < SILENCE_THRESHOLD then handleSilence s now
  else (s, [])

/-- Fold a list of (clock, volume) ticks through `detectTick`, keeping the
state only. -/
def runTicks (s : EngineState) (samples : List (Nat × ℚ)) : EngineState :=
  samples.foldl (fun st p => (detectTick st p.1 p.2).1) s

/-- The voice-activity path of the combined system: the engine reacts, the
interruption counter is untouched (only the manual UI interrupt touches it). -/
def vadVoiceActivity (s : SysState) : SysState × List VadEvent :=
  let r := handleVoiceActivity s.engine
  ({ engine := r.1, interruptionCount := s.interruptionCount }, r.2)

/-- The `interruptAgent` handler of the `VoiceInterface` component: call
`interruptCurrentResponse` and bump the interruption counter. -/
def interruptAgent (s : SysState) : SysState × List VadEvent :=
  let r := interruptCurrentResponse s.engine
  ({ engine := r.1, interruptionCount := s.interruptionCount + 1 }, r.2)

/-- The synchronous prefix of `playAudioWithInterruption`: build the new
audio element, store it in `currentAudio`, start playing.  The previous
element, if any, is overwritten without being paused. -/
def playAudioStart (s : EngineState) (a : AudioElt) : EngineState × List VadEvent :=
  ({ s with currentAudio := some a }, [VadEvent.playStarted a.id])

/-- Whitespace as stripped by the JavaScript trim method (restricted to the
ASCII whitespace that can occur in transcripts). -/
def isWsChar (c : Char) : Bool :=
  c = ' ' || c = '\t' || c = '\n' || c = '\r'

/-- The JavaScript trim method on a transcript. -/
def jsTrim (text : List Char) : List Char :=
  ((text.dropWhile isWsChar).reverse.dropWhile isWsChar).reverse

/-- The skip condition of step 3 of the pipeline: empty after trimming, or
raw length below 3. -/
def shortTranscript (text : List Char) : Bool :=
  jsTrim text = [] || text.length < 3

/-- Outcome of one external call, as seen when its promise settles. -/
inductive StageResult (α : Type) where
  | ok (val : α)
  | fail
deriving DecidableEq, Repr

/-- Oracle for one pipeline run: for every suspension point of
`processAudioWithInterruption`, the settled value of the call and the value
of `currentProcessingId` the engine observes when the call returns.
`idDuringTts` is the id value while the TTS call is in flight; the code
never reads it, it is carried so staleness during TTS is expressible. -/
structure RunEnv where
  base64Ok : Bool
  sttResult : StageResult (List Char)
  idAtSttReturn : Option Nat
  gptResult : StageResult (List Char)
  idAtGptReturn : Option Nat
  ttsResult : StageResult Nat
  idDuringTts : Option Nat
  playbackFails : Bool
deriving DecidableEq, Repr

/-- Observable steps of one pipeline run. -/
inductive PipeEvent where
  | sttCall
  | gptCall
  | ttsCall
  | playbackStart (url : Nat)
  | metricsLog
deriving DecidableEq, Repr

/-- How one run of `processAudioWithInterruption` ended. -/
inductive RunOutcome where
  | completed
  | discarded
  | skippedShort
  | errorCaught
deriving DecidableEq, Repr

/-- What one run returns to its caller: the event trace, the outcome, and
the value of `isProcessing` after the run (the finally block). -/
structure RunResult where
  trace : List PipeEvent
  outcome : RunOutcome
  isProcessingAfter : Bool
deriving DecidableEq, Repr

/-- Id allocation at the start of a run: the clock reading, as Date.now gives it. -/
def newProcessingId (now : Nat) : Nat := now

/-- Body of the try block of processAudioWithInterruption for the run with id
`pid`: base64 conversion, STT, staleness check, short-transcript check,
GPT, staleness check, TTS (which plays the audio itself, with no further
staleness check), then the metrics log.  `Except.error` is a thrown
exception reaching the catch. -/
def processBody (pid : Nat) (env : RunEnv) :
    List PipeEvent × Except Unit RunOutcome :=
  if !env.base64Ok then ([], Except.error ()) else
  match env.sttResult with
  | StageResult.fail => ([PipeEvent.sttCall], Except.error ())
  | StageResult.ok text =>
    if env.idAtSttReturn ≠ some pid then
      ([PipeEvent.sttCall], Except.ok RunOutcome.discarded)
    else if shortTranscript text then
      ([PipeEvent.sttCall], Except.ok RunOutcome.skippedShort)
    else
      match env.gptResult with
      | StageResult.fail =>
          ([PipeEvent.sttCall, PipeEvent.gptCall], Except.error ())
      | StageResult.ok _reply =>
        if env.idAtGptReturn ≠ some pid then
          ([PipeEvent.sttCall, PipeEvent.gptCall], Except.ok RunOutcome.discarded)
        else
          match env.ttsResult with
          | StageResult.fail =>
              ([PipeEvent.sttCall, PipeEvent.gptCall, PipeEvent.ttsCall],
               Except.error ())
          | StageResult.ok url =>
            if env.playbackFails then
              ([PipeEvent.sttCall, PipeEvent.gptCall, PipeEvent.ttsCall,
                PipeEvent.playbackStart url],
               Except.error ())
            else
              ([PipeEvent.sttCall, PipeEvent.gptCall, PipeEvent.ttsCall,
                PipeEvent.playbackStart url, PipeEvent.metricsLog],
               Except.ok RunOutcome.completed)

/-- Embedding of processAudioWithInterruption for the run starting at clock `now`:
run the try block, catch any exception, and reset `isProcessing` in the
finally block. -/
def processAudioWithInterruption (now : Nat) (env : RunEnv) : RunResult :=
  let pid := newProcessingId now
  let r := processBody pid env
  { trace := r.1
    outcome :=
      match r.2 with
      | Except.ok o => o
      | Except.error _ => RunOutcome.errorCaught
    isProcessingAfter := false }

/-- Embedding of getCurrentVolume as the mean-based volume formula (sum of the bytes
over count, normalised by 255); returns 0 on an empty snapshot as rational
division by zero is zero. -/
def getCurrentVolume (d : List Nat) : ℚ :=
  ((d.sum : ℚ) / (d.length : ℚ)) / 255

/-- The square of the volume the detection loop computes
(sqrt of mean square, normalised by 255), kept squared so it is rational. -/
def detectRmsSq (d : List Nat) : ℚ :=
  ((((d.map fun x => x * x).sum : Nat) : ℚ) / (d.length : ℚ)) / (255 * 255)

/-- The observer snapshot returned by `getProcessingState`. -/
structure VoiceProcessingState where
  isListening : Bool
  isProcessing : Bool
  isSpeaking : Bool
  currentVolume : ℚ
  silenceDetected : Bool
  interruptionDetected : Bool
deriving DecidableEq, Repr

/-- Embedding of getProcessingState: rebuild the snapshot from the live fields; the
`interruptionDetected` field is the literal false. -/
def getProcessingState (s : EngineState) : VoiceProcessingState :=
  { isListening :=
      match s.recorder with
      | RecState.recording => true
      | RecState.inactive => false
    isProcessing := s.isProcessing
    isSpeaking :=
      match s.currentAudio with
      | some a => !a.paused
      | none => false
    currentVolume := getCurrentVolume s.snapshot
    silenceDetected := s.silenceTimer.isSome
    interruptionDetected := false }

/-- A quiescent engine: nothing recording, nothing playing. -/
def idleEngine : EngineState :=
  { isProcessing := false, silenceTimer := none, currentProcessingId := none,
    currentAudio := none, recorder := RecState.inactive, snapshot := [] }

/-- An engine that is currently recording an utterance. -/
def recordingEngine : EngineState :=
  { idleEngine with recorder := RecState.recording }

/-- An engine that is playing back a reply for run 5. -/
def playingEngine : EngineState :=
  { idleEngine with
    currentAudio := some ⟨1, false⟩
    currentProcessingId := some 5 }

/-- The playing engine together with a zero interruption counter. -/
def playingSys : SysState :=
  { engine := playingEngine, interruptionCount := 0 }

/-- A run environment in which every stage succeeds and the id observed at
both staleness checks is 1, but the id is cleared while TTS is in flight. -/
def staleTtsEnv : RunEnv :=
  { base64Ok := true
    sttResult := StageResult.ok ['h', 'e', 'l', 'l', 'o']
    idAtSttReturn := some 1
    gptResult := StageResult.ok ['h', 'i']
    idAtGptReturn := some 1
    ttsResult := StageResult.ok 7
    idDuringTts := none
    playbackFails := false }

/-- A run environment invalidated already when STT returns. -/
def staleSttEnv : RunEnv :=
  { staleTtsEnv with idAtSttReturn := none, idDuringTts := some 1 }

/-- A run environment whose transcription comes back empty. -/
def emptyTextEnv : RunEnv :=
  { staleTtsEnv with sttResult := StageResult.ok [], idDuringTts := some 1 }

/-- A run environment whose STT call fails. -/
def sttFailEnv : RunEnv :=
  { staleTtsEnv with sttResult := StageResult.fail, idDuringTts := some 1 }

/-!  Helper lemmas, shared between the claim theorems. -/

theorem silence_lt_interruption : SILENCE_THRESHOLD < INTERRUPTION_THRESHOLD := by
  norm_num [SILENCE_THRESHOLD, INTERRUPTION_THRESHOLD]

theorem handleVoiceActivity_spec (s : EngineState) :
    (handleVoiceActivity s).1.silenceTimer = none ∧
    (handleVoiceActivity s).1.recorder = RecState.recording ∧
    (s.recorder = RecState.inactive →
      VadEvent.startRecording ∈ (handleVoiceActivity s).2) := by
  rcases s with ⟨ip, st, cid, ca, rec, snap⟩
  cases ca with
  | none =>
      cases st <;> cases rec <;>
        simp [handleVoiceActivity, interruptCurrentResponse]
  | some a =>
      rcases a with ⟨aid, ap⟩
      cases ap <;> cases st <;> cases rec <;>
        simp [handleVoiceActivity, interruptCurrentResponse]

theorem detectTick_high (s : EngineState) (now : Nat) (vol : ℚ)
    (h : INTERRUPTION_THRESHOLD < vol) :
    detectTick s now vol = handleVoiceActivity s := by
  simp [detectTick, h]

theorem detectTick_timer_armed_low (s : EngineState) (now : Nat) (vol : ℚ)
    (ht : s.silenceTimer.isSome = true) (hv : vol ≤ INTERRUPTION_THRESHOLD) :
    (detectTick s now vol).1 = s := by
  have hA : ¬ INTERRUPTION_THRESHOLD < vol := not_lt.mpr hv
  by_cases hB : vol < SILENCE_THRESHOLD
  · simp [detectTick, hA, hB, handleSilence, ht]
  · simp [detectTick, hA, hB]

theorem runTicks_timer_armed_low (samples : List (Nat × ℚ)) :
    ∀ s : EngineState, s.silenceTimer.isSome = true →
      (∀ p ∈ samples, p.2 ≤ INTERRUPTION_THRESHOLD) →
      runTicks s samples = s := by
  induction samples with
  | nil => intro s _ _; rfl
  | cons p rest ih =>
      intro s ht hall
      have h1 : (detectTick s p.1 p.2).1 = s :=
        detectTick_timer_armed_low s p.1 p.2 ht (hall p (List.mem_cons_self p rest))
      calc runTicks s (p :: rest)
          = runTicks (detectTick s p.1 p.2).1 rest := rfl
        _ = runTicks s rest := by rw [h1]
        _ = s := ih s ht (fun q hq => hall q (List.mem_cons_of_mem p hq))

theorem detectTick_arms (s : EngineState) (now : Nat) (vol : ℚ)
    (ht : s.silenceTimer = none) (hv : vol < SILENCE_THRESHOLD) :
    (detectTick s now vol).1 =
      { s with silenceTimer := some (now + SILENCE_DURATION) } := by
  have hA : ¬ INTERRUPTION_THRESHOLD < vol :=
    not_lt.mpr (le_of_lt (hv.trans silence_lt_interruption))
  simp [detectTick, hA, hv, handleSilence, ht]

theorem processBody_playback_needs_checks (pid : Nat) (env : RunEnv)
    (h : PipeEvent.metricsLog ∈ (processBody pid env).1 ∨
         ∃ u, PipeEvent.playbackStart u ∈ (processBody pid env).1) :
    env.idAtSttReturn = some pid ∧ env.idAtGptReturn = some pid := by
  rcases env with ⟨b64, stt, id1, gpt, id2, tts, idT, pf⟩
  cases b64 <;> cases stt <;> cases gpt <;> cases tts <;>
    simp only [processBody] at h <;>
    (split_ifs at h <;> simp_all)

/-- C10: getProcessingState returns interruptionDetected = false in every
state, reachable or not — the field carries no information to observers. -/
theorem c10_interruption_detected_always_false (s : EngineState) :
    (getProcessingState s).interruptionDetected = false := rfl

/-- C6: a sampling tick whose volume lies in the hysteresis band (strictly
above the silence threshold, at or below the interruption threshold) takes
no action: the state is unchanged and no event is emitted. -/
theorem c6_hysteresis_band_inert (s : EngineState) (now : Nat) (vol : ℚ)
    (h1 : SILENCE_THRESHOLD < vol) (h2 : vol ≤ INTERRUPTION_THRESHOLD) :
    detectTick s now vol = (s, []) := by
  have hA : ¬ INTERRUPTION_THRESHOLD < vol := not_lt.mpr h2
  have hB : ¬ vol < SILENCE_THRESHOLD := not_lt.mpr (le_of_lt h1)
  simp [detectTick, hA, hB]

theorem c6_hysteresis_band_inert_witness :
    SILENCE_THRESHOLD < (1 : ℚ) / 30 ∧ (1 : ℚ) / 30 ≤ INTERRUPTION_THRESHOLD ∧
    detectTick recordingEngine 0 ((1 : ℚ) / 30) = (recordingEngine, []) :=
  ⟨by norm_num [SILENCE_THRESHOLD],
   by norm_num [INTERRUPTION_THRESHOLD],
   c6_hysteresis_band_inert recordingEngine 0 ((1 : ℚ) / 30)
     (by norm_num [SILENCE_THRESHOLD]) (by norm_num [INTERRUPTION_THRESHOLD])⟩

/-- C4 counterexample: the id of a run is the millisecond clock reading at
its start, so a run started no earlier than another need not receive a
strictly greater id — two runs in the same millisecond collide.  This
refutes strict monotonicity as the claim states it. -/
theorem c4_same_millisecond_ids_collide :
    ¬ (∀ t1 t2 : Nat, t1 ≤ t2 → newProcessingId t1 < newProcessingId t2) := by
  intro h
  exact absurd (h 0 0 le_rfl) (lt_irrefl _)

/-- C4 (amended): run ids are non-decreasing in the start clock reading and
strictly increase whenever the clock advanced between the two starts; runs
started within the same millisecond share an id. -/
theorem c4_id_monotone (t1 t2 : Nat) (h : t1 ≤ t2) :
    newProcessingId t1 ≤ newProcessingId t2 ∧
    (t1 < t2 → newProcessingId t1 < newProcessingId t2) :=
  ⟨h, fun h2 => h2⟩

theorem c4_id_monotone_witness :
    newProcessingId 3 ≤ newProcessingId 5 ∧ newProcessingId 3 < newProcessingId 5 :=
  ⟨(c4_id_monotone 3 5 (by decide)).1, (c4_id_monotone 3 5 (by decide)).2 (by decide)⟩

/-- C3 counterexample: starting playback while an unpaused element is
current does not pause that element — the event list of the play call
contains no pause for it, refuting "the previous playback is stopped before
the new one starts". -/
theorem c3_play_does_not_pause_previous :
    playingEngine.currentAudio = some ⟨1, false⟩ ∧
    (VadEvent.pauseAudio 1 ∉ (playAudioStart playingEngine ⟨2, false⟩).2) := by
  constructor
  · rfl
  · simp [playAudioStart, playingEngine, idleEngine]

/-- C3 (amended): at most one currentAudio reference exists because play
overwrites it (last writer wins), but a play call never pauses any element:
a previous active playback is dereferenced, not stopped. -/
theorem c3_play_overwrites_reference (s : EngineState) (a : AudioElt) :
    (playAudioStart s a).1.currentAudio = some a ∧
    (∀ i : Nat, VadEvent.pauseAudio i ∉ (playAudioStart s a).2) := by
  refine ⟨rfl, ?_⟩
  intro i
  simp [playAudioStart]

theorem c3_play_overwrites_reference_witness :
    (playAudioStart playingEngine ⟨2, false⟩).1.currentAudio = some ⟨2, false⟩ ∧
    VadEvent.pauseAudio 1 ∉ (playAudioStart playingEngine ⟨2, false⟩).2 :=
  ⟨(c3_play_overwrites_reference playingEngine ⟨2, false⟩).1,
   (c3_play_overwrites_reference playingEngine ⟨2, false⟩).2 1⟩

/-- C2 counterexample: a voice-activity sample arriving while an unpaused
playback element exists stops the playback and clears the processing id,
but the interruption counter stays at 0 instead of incrementing to 1 — the
engine's voice-activity path never touches the counter kept by the
interface component. -/
theorem c2_vad_interruption_does_not_bump_counter :
    playingSys.engine.currentAudio = some ⟨1, false⟩ ∧
    playingSys.interruptionCount = 0 ∧
    (vadVoiceActivity playingSys).1.engine.currentAudio = none ∧
    (vadVoiceActivity playingSys).1.engine.currentProcessingId = none ∧
    ¬ ((vadVoiceActivity playingSys).1.interruptionCount =
        playingSys.interruptionCount + 1) := by decide

/-- C2 (amended): a voice-activity sample above the interruption threshold
arriving while an unpaused playback element exists pauses that element,
clears the playback reference and the in-flight processing id, but leaves
the interruption counter unchanged (the counter increments only on the
manual interrupt action of the interface). -/
theorem c2_vad_interruption_effects (sys : SysState) (a : AudioElt)
    (hca : sys.engine.currentAudio = some a) (hp : a.paused = false) :
    VadEvent.pauseAudio a.id ∈ (vadVoiceActivity sys).2 ∧
    (vadVoiceActivity sys).1.engine.currentAudio = none ∧
    (vadVoiceActivity sys).1.engine.currentProcessingId = none ∧
    (vadVoiceActivity sys).1.interruptionCount = sys.interruptionCount := by
  rcases sys with ⟨⟨ip, st, cid, ca, rec, snap⟩, cnt⟩
  simp only at hca
  subst hca
  cases st <;> cases rec <;>
    simp [vadVoiceActivity, handleVoiceActivity, interruptCurrentResponse, hp]

theorem c2_vad_interruption_effects_witness :
    VadEvent.pauseAudio 1 ∈ (vadVoiceActivity playingSys).2 ∧
    (vadVoiceActivity playingSys).1.engine.currentAudio = none ∧
    (vadVoiceActivity playingSys).1.engine.currentProcessingId = none ∧
    (vadVoiceActivity playingSys).1.interruptionCount = playingSys.interruptionCount :=
  c2_vad_interruption_effects playingSys ⟨1, false⟩ rfl rfl

/-- C5: a sample strictly above the interruption threshold always leaves
the silence timer disarmed and the recorder recording (starting it, with a
start event, when it was inactive); and once a sample below the silence
threshold arms the timer while recording, any stretch of further
below-threshold samples keeps the timer armed for exactly 1500 ms after the
arming tick, and its firing stops the recorder. -/
theorem c5_vad_threshold_transitions :
    (∀ (s : EngineState) (now : Nat) (vol : ℚ), INTERRUPTION_THRESHOLD < vol →
       (detectTick s now vol).1.silenceTimer = none ∧
       (detectTick s now vol).1.recorder = RecState.recording ∧
       (s.recorder = RecState.inactive →
         VadEvent.startRecording ∈ (detectTick s now vol).2)) ∧
    (∀ (s : EngineState) (t0 : Nat) (v0 : ℚ) (samples : List (Nat × ℚ)),
       s.recorder = RecState.recording → s.silenceTimer = none →
       v0 < SILENCE_THRESHOLD → (∀ p ∈ samples, p.2 < SILENCE_THRESHOLD) →
       (runTicks (detectTick s t0 v0).1 samples).silenceTimer =
         some (t0 + SILENCE_DURATION) ∧
       (runTicks (detectTick s t0 v0).1 samples).recorder = RecState.recording ∧
       (fireSilenceTimer (runTicks (detectTick s t0 v0).1 samples)).1.recorder =
         RecState.inactive ∧
       VadEvent.stopRecording ∈
         (fireSilenceTimer (runTicks (detectTick s t0 v0).1 samples)).2) := by
  constructor
  · intro s now vol h
    rw [detectTick_high s now vol h]
    exact handleVoiceActivity_spec s
  · intro s t0 v0 samples hrec ht hv0 hall
    have hs1 : (detectTick s t0 v0).1 =
        { s with silenceTimer := some (t0 + SILENCE_DURATION) } :=
      detectTick_arms s t0 v0 ht hv0
    have hsome : ((detectTick s t0 v0).1).silenceTimer.isSome = true := by
      rw [hs1]
      rfl
    have hrun : runTicks (detectTick s t0 v0).1 samples = (detectTick s t0 v0).1 :=
      runTicks_timer_armed_low samples _ hsome
        (fun p hp => le_of_lt ((hall p hp).trans silence_lt_interruption))
    rw [hrun, hs1]
    refine ⟨rfl, hrec, ?_, ?_⟩ <;>
      simp [fireSilenceTimer, hrec]

theorem c5_vad_threshold_transitions_witness :
    ((detectTick idleEngine 0 ((1 : ℚ) / 10)).1.silenceTimer = none ∧
     (detectTick idleEngine 0 ((1 : ℚ) / 10)).1.recorder = RecState.recording ∧
     (idleEngine.recorder = RecState.inactive →
       VadEvent.startRecording ∈ (detectTick idleEngine 0 ((1 : ℚ) / 10)).2)) ∧
    ((runTicks (detectTick recordingEngine 0 ((1 : ℚ) / 200)).1
        [(10, (1 : ℚ) / 300)]).silenceTimer = some (0 + SILENCE_DURATION) ∧
     (runTicks (detectTick recordingEngine 0 ((1 : ℚ) / 200)).1
        [(10, (1 : ℚ) / 300)]).recorder = RecState.recording ∧
     (fireSilenceTimer (runTicks (detectTick recordingEngine 0 ((1 : ℚ) / 200)).1
        [(10, (1 : ℚ) / 300)])).1.recorder = RecState.inactive ∧
     VadEvent.stopRecording ∈
       (fireSilenceTimer (runTicks (detectTick recordingEngine 0 ((1 : ℚ) / 200)).1
          [(10, (1 : ℚ) / 300)])).2) := by
  constructor
  · exact c5_vad_threshold_transitions.1 idleEngine 0 ((1 : ℚ) / 10)
      (by norm_num [INTERRUPTION_THRESHOLD])
  · refine c5_vad_threshold_transitions.2 recordingEngine 0 ((1 : ℚ) / 200)
      [(10, (1 : ℚ) / 300)] rfl rfl (by norm_num [SILENCE_THRESHOLD]) ?_
    intro p hp
    rcases List.mem_singleton.mp hp with rfl
    norm_num [SILENCE_THRESHOLD]

/-- C1 counterexample: a run whose id is observed unchanged at the post-STT
and pre-TTS checks but is cleared while the TTS call is in flight still
starts playback and still logs its stage latencies — the code performs no
staleness check between the TTS call returning and playback or metrics. -/
theorem c1_stale_during_tts_still_plays :
    staleTtsEnv.idDuringTts ≠ some (newProcessingId 1) ∧
    PipeEvent.playbackStart 7 ∈ (processAudioWithInterruption 1 staleTtsEnv).trace ∧
    PipeEvent.metricsLog ∈ (processAudioWithInterruption 1 staleTtsEnv).trace := by
  decide

/-- C1 (amended): a change of the current processing id that is visible at
the post-STT check or at the pre-TTS check causes the run to be discarded:
it never starts playback and never logs its latencies.  A change occurring
while the TTS stage is in flight is not detected. -/
theorem c1_stale_before_tts_never_applied (now : Nat) (env : RunEnv)
    (h : env.idAtSttReturn ≠ some (newProcessingId now) ∨
         env.idAtGptReturn ≠ some (newProcessingId now)) :
    (∀ u : Nat,
      PipeEvent.playbackStart u ∉ (processAudioWithInterruption now env).trace) ∧
    PipeEvent.metricsLog ∉ (processAudioWithInterruption now env).trace := by
  have htr : (processAudioWithInterruption now env).trace =
      (processBody (newProcessingId now) env).1 := rfl
  constructor
  · intro u hu
    rw [htr] at hu
    rcases processBody_playback_needs_checks (newProcessingId now) env
      (Or.inr ⟨u, hu⟩) with ⟨h1, h2⟩
    rcases h with h' | h'
    · exact h' h1
    · exact h' h2
  · intro hm
    rw [htr] at hm
    rcases processBody_playback_needs_checks (newProcessingId now) env
      (Or.inl hm) with ⟨h1, h2⟩
    rcases h with h' | h'
    · exact h' h1
    · exact h' h2

theorem c1_stale_before_tts_never_applied_witness :
    (staleSttEnv.idAtSttReturn ≠ some (newProcessingId 1) ∨
     staleSttEnv.idAtGptReturn ≠ some (newProcessingId 1)) ∧
    PipeEvent.playbackStart 7 ∉ (processAudioWithInterruption 1 staleSttEnv).trace ∧
    PipeEvent.metricsLog ∉ (processAudioWithInterruption 1 staleSttEnv).trace :=
  ⟨Or.inl (by decide),
   (c1_stale_before_tts_never_applied 1 staleSttEnv (Or.inl (by decide))).1 7,
   (c1_stale_before_tts_never_applied 1 staleSttEnv (Or.inl (by decide))).2⟩

/-- C7: when the transcription succeeds but its text is empty after
trimming or shorter than 3 characters, the run stops without raising: it
makes no reply-generation call, no TTS call, starts no playback, logs no
latencies, and its outcome is not the error path. -/
theorem c7_short_transcript_silent_stop (now : Nat) (env : RunEnv)
    (text : List Char) (hb : env.base64Ok = true)
    (hstt : env.sttResult = StageResult.ok text)
    (hshort : shortTranscript text = true) :
    (processAudioWithInterruption now env).trace = [PipeEvent.sttCall] ∧
    PipeEvent.gptCall ∉ (processAudioWithInterruption now env).trace ∧
    PipeEvent.ttsCall ∉ (processAudioWithInterruption now env).trace ∧
    (∀ u : Nat,
      PipeEvent.playbackStart u ∉ (processAudioWithInterruption now env).trace) ∧
    PipeEvent.metricsLog ∉ (processAudioWithInterruption now env).trace ∧
    (processAudioWithInterruption now env).outcome ≠ RunOutcome.errorCaught := by
  have key : (processAudioWithInterruption now env).trace = [PipeEvent.sttCall] ∧
      (processAudioWithInterruption now env).outcome ≠ RunOutcome.errorCaught := by
    by_cases h1 : env.idAtSttReturn = some (newProcessingId now)
    · simp [processAudioWithInterruption, processBody, hb, hstt, h1, hshort]
    · simp [processAudioWithInterruption, processBody, hb, hstt, h1]
  refine ⟨key.1, ?_, ?_, ?_, ?_, key.2⟩ <;> rw [key.1] <;> simp

theorem c7_short_transcript_silent_stop_witness :
    (processAudioWithInterruption 1 emptyTextEnv).trace = [PipeEvent.sttCall] ∧
    PipeEvent.gptCall ∉ (processAudioWithInterruption 1 emptyTextEnv).trace ∧
    PipeEvent.ttsCall ∉ (processAudioWithInterruption 1 emptyTextEnv).trace ∧
    PipeEvent.playbackStart 7 ∉ (processAudioWithInterruption 1 emptyTextEnv).trace ∧
    (processAudioWithInterruption 1 emptyTextEnv).outcome ≠ RunOutcome.errorCaught := by
  have h := c7_short_transcript_silent_stop 1 emptyTextEnv [] rfl rfl (by decide)
  exact ⟨h.1, h.2.1, h.2.2.1, h.2.2.2.1 7, h.2.2.2.2.2⟩

/-- C8: any single-stage failure is contained in its run — the failing call
was attempted exactly once, no later stage runs, the run returns through
the catch (never propagating), and the finally block resets the processing
flag; also, unconditionally, no stage call ever appears twice in a trace
(no retry). -/
theorem c8_failure_contained (now : Nat) (env : RunEnv) :
    ((processAudioWithInterruption now env).trace.count PipeEvent.sttCall ≤ 1 ∧
     (processAudioWithInterruption now env).trace.count PipeEvent.gptCall ≤ 1 ∧
     (processAudioWithInterruption now env).trace.count PipeEvent.ttsCall ≤ 1) ∧
    (processAudioWithInterruption now env).isProcessingAfter = false ∧
    ((processBody (newProcessingId now) env).2 = Except.error () →
      (processAudioWithInterruption now env).outcome = RunOutcome.errorCaught) ∧
    (env.base64Ok = true → env.sttResult = StageResult.fail →
      (processAudioWithInterruption now env).trace = [PipeEvent.sttCall] ∧
      (processAudioWithInterruption now env).outcome = RunOutcome.errorCaught) ∧
    (∀ text : List Char, env.base64Ok = true →
      env.sttResult = StageResult.ok text →
      env.idAtSttReturn = some (newProcessingId now) →
      shortTranscript text = false → env.gptResult = StageResult.fail →
      (processAudioWithInterruption now env).trace =
        [PipeEvent.sttCall, PipeEvent.gptCall] ∧
      (processAudioWithInterruption now env).outcome = RunOutcome.errorCaught) ∧
    (∀ text reply : List Char, env.base64Ok = true →
      env.sttResult = StageResult.ok text →
      env.idAtSttReturn = some (newProcessingId now) →
      shortTranscript text = false → env.gptResult = StageResult.ok reply →
      env.idAtGptReturn = some (newProcessingId now) →
      env.ttsResult = StageResult.fail →
      (processAudioWithInterruption now env).trace =
        [PipeEvent.sttCall, PipeEvent.gptCall, PipeEvent.ttsCall] ∧
      (processAudioWithInterruption now env).outcome = RunOutcome.errorCaught) := by
  refine ⟨?_, rfl, ?_, ?_, ?_, ?_⟩
  · have htr : (processAudioWithInterruption now env).trace =
        (processBody (newProcessingId now) env).1 := rfl
    rw [htr]
    rcases env with ⟨b64, stt, id1, gpt, id2, tts, idT, pf⟩
    cases b64 <;> cases stt <;> cases gpt <;> cases tts <;>
      simp only [processBody] <;>
      (try split_ifs) <;>
      refine ⟨?_, ?_, ?_⟩ <;> simp [List.count_cons, List.count_nil]
  · intro herr
    simp [processAudioWithInterruption, herr]
  · intro hb hstt
    simp [processAudioWithInterruption, processBody, hb, hstt]
  · intro text hb hstt h1 hshort hgpt
    simp [processAudioWithInterruption, processBody, hb, hstt, h1, hshort, hgpt]
  · intro text reply hb hstt h1 hshort hgpt h2 htts
    simp [processAudioWithInterruption, processBody, hb, hstt, h1, hshort,
      hgpt, h2, htts]

theorem c8_failure_contained_witness :
    (processAudioWithInterruption 1 sttFailEnv).trace = [PipeEvent.sttCall] ∧
    (processAudioWithInterruption 1 sttFailEnv).outcome = RunOutcome.errorCaught ∧
    (processAudioWithInterruption 1 sttFailEnv).isProcessingAfter = false := by
  have h := c8_failure_contained 1 sttFailEnv
  exact ⟨(h.2.2.2.1 rfl rfl).1, (h.2.2.2.1 rfl rfl).2, h.2.1⟩

/-- C9 counterexample: on the snapshot with bytes 0 and 255 the exposed
volume (mean over 255) is 1/2, while the detection loop's volume (square
root of the mean square over 255) is the square root of 1/2 — the two
formulas disagree, refuting "the same formula the activity-detection loop
uses". -/
theorem c9_volume_not_rms :
    ¬ (((getCurrentVolume [0, 255] : ℚ) : ℝ) =
        Real.sqrt ((detectRmsSq [0, 255] : ℚ) : ℝ)) := by
  have h1 : (getCurrentVolume [0, 255] : ℚ) = 1 / 2 := by
    norm_num [getCurrentVolume]
  have h2 : (detectRmsSq [0, 255] : ℚ) = 1 / 2 := by
    norm_num [detectRmsSq]
  rw [h1, h2]
  push_cast
  intro h
  have hs : Real.sqrt ((1 : ℝ) / 2) ^ 2 = (1 : ℝ) / 2 :=
    Real.sq_sqrt (by norm_num)
  rw [← h] at hs
  norm_num at hs

/-- C9 (amended): the exposed current-volume reading lies in 0..1 for any
nonempty snapshot of bytes, and equals the arithmetic mean of the snapshot
normalised by 255 — not, in general, the root-mean-square the detection
loop uses. -/
theorem c9_volume_mean_range (d : List Nat) (hne : d ≠ [])
    (hb : ∀ x ∈ d, x ≤ 255) :
    0 ≤ getCurrentVolume d ∧ getCurrentVolume d ≤ 1 ∧
    getCurrentVolume d = (d.sum : ℚ) / ((d.length : ℚ) * 255) := by
  have hlen : 0 < (d.length : ℚ) := by
    exact_mod_cast List.length_pos.mpr hne
  have hsum : (d.sum : ℚ) ≤ (d.length : ℚ) * 255 := by
    have := List.sum_le_card_nsmul d 255 hb
    rw [smul_eq_mul] at this
    exact_mod_cast this
  refine ⟨?_, ?_, ?_⟩
  · unfold getCurrentVolume
    positivity
  · unfold getCurrentVolume
    rw [div_div]
    exact (div_le_one (mul_pos hlen (by norm_num))).mpr hsum
  · unfold getCurrentVolume
    rw [div_div]

theorem c9_volume_mean_range_witness :
    0 ≤ getCurrentVolume [100, 200] ∧ getCurrentVolume [100, 200] ≤ 1 ∧
    getCurrentVolume [100, 200] =
      (([100, 200] : List Nat).sum : ℚ) / ((([100, 200] : List Nat).length : ℚ) * 255) :=
  c9_volume_mean_range [100, 200] (by decide) (by decide)

end VoiceEngine
